import Mathlib

/-!
Shallow embedding of `packages/@aws-cdk/aws-applicationautoscaling/lib/base-scalable-attribute.ts`
(which holds two TypeScript components: the `BaseScalableAttribute` facade over a
`ScalableTarget`, and the module-scaffolding script `create-missing-libraries`).

JavaScript string primitives used by the source (`toLocaleLowerCase`, `Array.join`,
template-literal interpolation of `undefined`, `String.split`) are modelled by
explicit Lean functions below.  File-system writes, template copies and subprocess
invocations are modelled as event lists in a `GenState` record.
-/

namespace Cdk

/-- Model of JS `toLocaleLowerCase` (ASCII inputs): lowercase every character. -/
def jsToLower (s : String) : String := ⟨s.data.map Char.toLower⟩

/-- Model of JS `Array.prototype.join(sep)`. -/
def jsJoin (sep : String) : List String → String
  | [] => ""
  | [x] => x
  | x :: y :: xs => x ++ sep ++ jsJoin sep (y :: xs)

/-- Model of interpolating a possibly-`undefined` JS value into a template literal:
`undefined` prints as the string `"undefined"`. -/
def jsUndefined : Option String → String
  | some s => s
  | none => "undefined"

/-- Split a character list at every (leftmost, non-overlapping) occurrence of
the two-character separator `a b` — the JS `split('::')` scan. -/
def splitOn2 (a b : Char) : List Char → List (List Char)
  | [] => [[]]
  | [c] => [[c]]
  | c :: d :: rest =>
    if c = a ∧ d = b then [] :: splitOn2 a b rest
    else
      match splitOn2 a b (d :: rest) with
      | [] => [[c]]
      | p :: ps => (c :: p) :: ps

/-- Split a character list at every occurrence of the character `a` — the JS
`split('/')` scan. -/
def splitOn1 (a : Char) : List Char → List (List Char)
  | [] => [[]]
  | c :: rest =>
    if c = a then [] :: splitOn1 a rest
    else
      match splitOn1 a rest with
      | [] => [[c]]
      | p :: ps => (c :: p) :: ps

/-- Model of the destructuring `const [moduleFamily, moduleBaseName] = namespace.split('::')`:
the first component always exists (JS `split` never returns an empty array on a string),
the second is `undefined` when the separator does not occur. -/
def splitNs (ns : String) : String × Option String :=
  match (splitOn2 ':' ':' ns.data).map (fun l => (⟨l⟩ : String)) with
  | [] => ("", none)
  | [f] => (f, none)
  | f :: b :: _ => (f, some b)

/-- Model of `path.basename` on the paths this script resolves: the last
`/`-separated component. -/
def basename (p : String) : String :=
  (((splitOn1 '/' p.data).map (fun l => (⟨l⟩ : String))).getLastD "")

/-- Model of JS `String.prototype.trimLeft`: drop leading whitespace. -/
def jsTrimLeft (s : String) : String := ⟨s.data.dropWhile Char.isWhitespace⟩

/-- Model of `path.join` restricted to two components. -/
def joinPath (a b : String) : String := a ++ "/" ++ b

/-- JSON values as produced by the scaffolder's manifest literal: strings,
booleans, objects and arrays suffice. -/
inductive JVal where
  | jstr (s : String)
  | jbool (b : Bool)
  | jobj (fields : List (String × JVal))
  | jarr (elems : List JVal)
deriving Repr

/-- JSON string quoting (the manifest's strings need no escapes, but quote,
backslash and newline are escaped as `JSON.stringify` does). -/
def jquote (s : String) : String :=
  "\"" ++ ⟨s.data.foldr (fun c acc =>
    if c = '"' then '\\' :: '"' :: acc
    else if c = '\\' then '\\' :: '\\' :: acc
    else if c = '\n' then '\\' :: 'n' :: acc
    else c :: acc) []⟩ ++ "\""

/-- `n` spaces of indentation. -/
def spaces (n : Nat) : String := ⟨List.replicate n ' '⟩

mutual
/-- Model of `JSON.stringify(v, undefined, 2)` at indentation level `ind`. -/
def jrender (ind : Nat) : JVal → String
  | .jstr s => jquote s
  | .jbool b => if b then "true" else "false"
  | .jobj [] => "\x7b\x7d"
  | .jobj (f :: fs) =>
      "\x7b\n" ++ jrenderFields (ind + 2) (f :: fs) ++ "\n" ++ spaces ind ++ "\x7d"
  | .jarr [] => "[]"
  | .jarr (e :: es) =>
      "[\n" ++ jrenderElems (ind + 2) (e :: es) ++ "\n" ++ spaces ind ++ "]"

/-- Render the fields of a JSON object, comma-and-newline separated. -/
def jrenderFields (ind : Nat) : List (String × JVal) → String
  | [] => ""
  | [(k, v)] => spaces ind ++ jquote k ++ ": " ++ jrender ind v
  | (k, v) :: f :: fs =>
      spaces ind ++ jquote k ++ ": " ++ jrender ind v ++ ",\n" ++ jrenderFields ind (f :: fs)

/-- Render the elements of a JSON array, comma-and-newline separated. -/
def jrenderElems (ind : Nat) : List JVal → String
  | [] => ""
  | [v] => spaces ind ++ jrender ind v
  | v :: e :: es => spaces ind ++ jrender ind v ++ ",\n" ++ jrenderElems ind (e :: es)
end

/-- Field lookup on a JSON object value. -/
def JVal.get (j : JVal) (key : String) : Option JVal :=
  match j with
  | .jobj fs => fs.lookup key
  | _ => none

/-- The argument shapes accepted by the scaffolder's `write` helper
(`string[] | string | object`); `other` stands for any runtime value of
another shape, which the helper rejects. -/
inductive Contents where
  | str (s : String)
  | list (xs : List String)
  | obj (j : JVal)
  | other
deriving Repr

/-- The body computed by the `write` helper before the trailing newline is
appended: strings are `trimLeft`ed, arrays joined with `'\n'`, objects
serialized by `JSON.stringify(contents, undefined, 2)`; anything else throws. -/
def renderContents : Contents → Except String String
  | .str s => .ok (jsTrimLeft s)
  | .list xs => .ok (jsJoin "\n" xs)
  | .obj j => .ok (jrender 0 j)
  | .other => .error "Invalid type of contents"

/-- The full data written by the `write` helper: the rendered body plus `'\n'`. -/
def writeData (c : Contents) : Except String String :=
  (renderContents c).map (fun d => d ++ "\n")

/-! ### Naming derivations of the scaffolder (lines 126-149 of the script) -/

/-- `moduleName`: lowercase of `moduleFamily ++ "-" ++ moduleBaseName`, with a
missing base name interpolated as `"undefined"` (JS template-literal semantics). -/
def moduleDirName (ns : String) : String :=
  jsToLower ((splitNs ns).1 ++ "-" ++ jsUndefined (splitNs ns).2)

/-- `dotnetPackage`. -/
def dotnetPackage (moduleFamily moduleBaseName : String) : String :=
  "Amazon.CDK." ++ moduleFamily ++ "." ++ moduleBaseName

/-- `javaGroupId`. -/
def javaGroupId : String := "software.amazon.awscdk"

/-- `javaPackage`: the reserved family literal `"AWS"` is replaced by
`"services"`, any other family is kept, lowercased and dot-joined. -/
def javaPackage (moduleFamily lowcaseModuleName : String) : String :=
  if moduleFamily = "AWS" then "services." ++ lowcaseModuleName
  else jsToLower moduleFamily ++ "." ++ lowcaseModuleName

/-- `javaArtifactId`: the reserved family literal `"AWS"` is dropped,
any other family is kept, lowercased and hyphen-joined. -/
def javaArtifactId (moduleFamily lowcaseModuleName : String) : String :=
  if moduleFamily = "AWS" then lowcaseModuleName
  else jsToLower moduleFamily ++ "-" ++ lowcaseModuleName

/-! ### The templated files (lines 172-307 of the script) -/

/-- The `package.json` manifest object literal. -/
def packageJson (version ns moduleName lowcaseModuleName packageName : String) : JVal :=
  .jobj [
    ("name", .jstr packageName),
    ("version", .jstr version),
    ("description", .jstr ("The CDK Construct Library for " ++ ns)),
    ("main", .jstr "lib/index.js"),
    ("types", .jstr "lib/index.d.ts"),
    ("jsii", .jobj [
      ("outdir", .jstr "dist"),
      ("targets", .jobj [
        ("dotnet", .jobj [
          ("namespace", .jstr (dotnetPackage (splitNs ns).1 (jsUndefined (splitNs ns).2))),
          ("packageId", .jstr (dotnetPackage (splitNs ns).1 (jsUndefined (splitNs ns).2))),
          ("signAssembly", .jbool true),
          ("assemblyOriginatorKeyFile", .jstr "../../key.snk")]),
        ("java", .jobj [
          ("package", .jstr (javaGroupId ++ "." ++ javaPackage (splitNs ns).1 lowcaseModuleName)),
          ("maven", .jobj [
            ("groupId", .jstr javaGroupId),
            ("artifactId", .jstr (javaArtifactId (splitNs ns).1 lowcaseModuleName))])]),
        ("sphinx", .jobj [])])]),
    ("repository", .jobj [
      ("type", .jstr "git"),
      ("url", .jstr "https://github.com/awslabs/aws-cdk.git")]),
    ("homepage", .jstr "https://github.com/awslabs/aws-cdk"),
    ("scripts", .jobj [
      ("build", .jstr "cdk-build"),
      ("integ", .jstr "cdk-integ"),
      ("lint", .jstr "cdk-lint"),
      ("package", .jstr "cdk-package"),
      ("pkglint", .jstr "pkglint -f"),
      ("test", .jstr "cdk-test"),
      ("watch", .jstr "cdk-watch"),
      ("cfn2ts", .jstr "cfn2ts")]),
    ("cdk-build", .jobj [("cloudformation", .jstr ns)]),
    ("keywords", .jarr [.jstr "aws", .jstr "cdk", .jstr "constructs",
      .jstr ns, .jstr moduleName]),
    ("author", .jobj [
      ("name", .jstr "Amazon Web Services"),
      ("url", .jstr "https://aws.amazon.com"),
      ("organization", .jbool true)]),
    ("license", .jstr "Apache-2.0"),
    ("devDependencies", .jobj [
      ("@aws-cdk/assert", .jstr ("^" ++ version)),
      ("cdk-build-tools", .jstr ("^" ++ version)),
      ("cfn2ts", .jstr ("^" ++ version)),
      ("pkglint", .jstr ("^" ++ version))]),
    ("dependencies", .jobj [("@aws-cdk/cdk", .jstr ("^" ++ version))]),
    ("peerDependencies", .jobj [("@aws-cdk/cdk", .jstr ("^" ++ version))]),
    ("engines", .jobj [("node", .jstr ">= 8.10.0")])
  ]

/-- The `.gitignore` line list. -/
def gitignoreLines : List String :=
  ["*.d.ts", "*.generated.ts", "*.js", "*.js.map", "*.snk", ".jsii",
   ".LAST_BUILD", ".LAST_PACKAGE", ".nycrc", ".nyc_output", "coverage",
   "dist", "tsconfig.json", "tslint.json"]

/-- The `.npmignore` line list. -/
def npmignoreLines : List String :=
  ["# The basics", "*.ts", "*.tgz", "*.snk", "!*.d.ts", "!*.js", "",
   "# Coverage", "coverage", ".nyc_output", ".nycrc", "",
   "# Build gear", "dist", ".LAST_BUILD", ".LAST_PACKAGE", ".jsii"]

/-- The `lib/index.ts` entry-point line list. -/
def indexTsLines (ns lowcaseModuleName : String) : List String :=
  ["// " ++ ns ++ " CloudFormation Resources:",
   "export * from './" ++ lowcaseModuleName ++ ".generated';"]

/-- The placeholder test-file line list. -/
def testFileLines : List String :=
  ["import \x7b Test, testCase \x7d from 'nodeunit';",
   "import \x7b\x7d from '../lib';",
   "",
   "export = testCase(\x7b",
   "    notTested(test: Test) \x7b",
   "        test.ok(true, 'No tests are specified for this package.');",
   "        test.done();",
   "    \x7d",
   "\x7d);"]

/-- The `README.md` line list. -/
def readmeLines (ns lowcaseModuleName packageName : String) : List String :=
  ["## " ++ ns ++ " Construct Library",
   "",
   "This module is part of the [AWS Cloud Development Kit](https://github.com/awslabs/aws-cdk) project.",
   "",
   "```ts",
   "import " ++ lowcaseModuleName ++ " = require('" ++ packageName ++ "');",
   "```"]

/-- All `write` calls performed for one generated namespace, in source order:
relative path paired with the contents value handed to the helper. -/
def generatedFiles (version ns moduleName lowcaseModuleName packageName : String) :
    List (String × Contents) :=
  [("package.json", .obj (packageJson version ns moduleName lowcaseModuleName packageName)),
   (".gitignore", .list gitignoreLines),
   (".npmignore", .list npmignoreLines),
   ("lib/index.ts", .list (indexTsLines ns lowcaseModuleName)),
   ("test/test." ++ lowcaseModuleName ++ ".ts", .list testFileLines),
   ("README.md", .list (readmeLines ns lowcaseModuleName packageName))]

/-! ### The scaffolder run as a state machine -/

/-- Observable effects of a scaffolder run: the module directories present at
the root, the file writes performed (path paired with the contents handed to
the `write` helper), the template copies performed, and the subprocess
commands spawned, each in chronological order. -/
structure GenState where
  dirs : List String
  writes : List (String × Contents)
  copies : List (String × String)
  execs : List String
deriving Repr

/-- The scaffolder's environment: the version read from `package.json`, the
resolved `lerna` CLI path, the file names in the static template directory,
and the exit status the operating system reports for each spawned command. -/
structure GenEnv where
  version : String
  lerna : String
  templateFiles : List String
  exitOf : String → Int

/-- Model of the `exec` helper: spawn the command, then resolve on exit
status `0` and reject with `non-zero exit code: <code>` otherwise. -/
def exec (exitOf : String → Int) (st : GenState) (command : String) :
    GenState × Option String :=
  let st' := { st with execs := st.execs ++ [command] }
  if exitOf command = 0 then (st', none)
  else (st', some ("non-zero exit code: " ++ toString (exitOf command)))

/-- The JS `TypeError` raised by `moduleBaseName.toLocaleLowerCase()` when the
namespace had no `::` separator. -/
def typeErrorUndefined : String :=
  "TypeError: Cannot read property 'toLocaleLowerCase' of undefined"

/-- One iteration of the scaffolder's namespace loop: skip when the module
directory exists; otherwise derive names, emit the six templated files, copy
the template directory, and run the two `lerna` subprocesses.  Returns the
state reached together with the error that aborted the iteration, if any. -/
def processNamespace (env : GenEnv) (ns : String) (st : GenState) :
    GenState × Option String :=
  let moduleName := moduleDirName ns
  if moduleName ∈ st.dirs then
    (st, none)
  else
    match (splitNs ns).2 with
    | none => (st, some typeErrorUndefined)
    | some moduleBaseName =>
      let lowcaseModuleName := jsToLower moduleBaseName
      let packageName := "@aws-cdk/" ++ moduleName
      let files := generatedFiles env.version ns moduleName lowcaseModuleName packageName
      let st1 : GenState :=
        { st with
          dirs := st.dirs ++ [moduleName],
          writes := st.writes ++ files.map (fun pc => (joinPath moduleName pc.1, pc.2)),
          copies := st.copies ++ env.templateFiles.map
            (fun f => (joinPath "template" f, joinPath moduleName f)) }
      match exec env.exitOf st1 (env.lerna ++ " bootstrap --scope " ++ packageName) with
      | (st2, some e) => (st2, some e)
      | (st2, none) =>
        exec env.exitOf st2
          (env.lerna ++ " run --include-filtered-dependencies --progress build --scope " ++ packageName)

/-- The namespace loop: process namespaces in order, aborting at the first
error and leaving everything already produced in place. -/
def runLoop (env : GenEnv) : List String → GenState → GenState × Option String
  | [], st => (st, none)
  | ns :: rest, st =>
    match processNamespace env ns st with
    | (st', none) => runLoop env rest st'
    | (st', some e) => (st', some e)

/-- The body of `main`: check that the resolved root's basename is
`@aws-cdk`, then iterate over all namespaces. -/
def mainRun (env : GenEnv) (root : String) (namespaces : List String)
    (st : GenState) : GenState × Option String :=
  if basename root = "@aws-cdk" then runLoop env namespaces st
  else (st, some ("Something went wrong. We expected " ++ root ++
    " to be the \"packages/@aws-cdk\" directory. Did you move me?"))

/-- The whole process including the top-level `main().catch(...)` handler:
returns the final state, the process exit status, and the error printed to
standard error (if any). -/
def scaffolderProcess (env : GenEnv) (root : String) (namespaces : List String)
    (st : GenState) : GenState × Nat × Option String :=
  match mainRun env root namespaces st with
  | (st', none) => (st', 0, none)
  | (st', some e) => (st', 1, some e)

/-! ### The `BaseScalableAttribute` facade

`ScalableTarget` and the three scaling-spec types live outside this file's
source; the facade forwards to the target verbatim, so the target is embedded
as a recorder of its constructor properties and of the calls made on it, with
the spec types kept as type parameters (`Sched`, `StepP`, `TrackP`). -/

/-- Constructor properties of the owned `ScalableTarget`. -/
structure ScalableTargetProps (Ns Role : Type) where
  serviceNamespace : Ns
  scalableDimension : String
  resourceId : String
  role : Role
  minCapacity : Int
  maxCapacity : Int

/-- One registration call made on a `ScalableTarget`. -/
inductive TargetCall (Sched StepP TrackP : Type) where
  | scaleOnSchedule (id : String) (props : Sched)
  | scaleOnMetric (id : String) (props : StepP)
  | scaleToTrackMetric (id : String) (props : TrackP)

/-- The external `ScalableTarget`, embedded as a recorder: its constructor
properties plus the registration calls made on it, in order. -/
structure ScalableTarget (Ns Role Sched StepP TrackP : Type) where
  props : ScalableTargetProps Ns Role
  calls : List (TargetCall Sched StepP TrackP)

/-- `ScalableTarget.scaleOnSchedule` records the call. -/
def ScalableTarget.scaleOnSchedule {Ns Role Sched StepP TrackP : Type}
    (t : ScalableTarget Ns Role Sched StepP TrackP) (id : String) (props : Sched) :
    ScalableTarget Ns Role Sched StepP TrackP :=
  { t with calls := t.calls ++ [.scaleOnSchedule id props] }

/-- `ScalableTarget.scaleOnMetric` records the call. -/
def ScalableTarget.scaleOnMetric {Ns Role Sched StepP TrackP : Type}
    (t : ScalableTarget Ns Role Sched StepP TrackP) (id : String) (props : StepP) :
    ScalableTarget Ns Role Sched StepP TrackP :=
  { t with calls := t.calls ++ [.scaleOnMetric id props] }

/-- `ScalableTarget.scaleToTrackMetric` records the call. -/
def ScalableTarget.scaleToTrackMetric {Ns Role Sched StepP TrackP : Type}
    (t : ScalableTarget Ns Role Sched StepP TrackP) (id : String) (props : TrackP) :
    ScalableTarget Ns Role Sched StepP TrackP :=
  { t with calls := t.calls ++ [.scaleToTrackMetric id props] }

/-- `BaseScalableAttributeProps`: `EnableScalingProps` (optional minimum,
required maximum) plus namespace, resource id, dimension and role. -/
structure BaseScalableAttributeProps (Ns Role : Type) where
  serviceNamespace : Ns
  resourceId : String
  dimension : String
  role : Role
  minCapacity : Option Int
  maxCapacity : Int

/-- The facade: it owns exactly one `ScalableTarget`, created in its
constructor. -/
structure BaseScalableAttribute (Ns Role Sched StepP TrackP : Type) where
  props : BaseScalableAttributeProps Ns Role
  target : ScalableTarget Ns Role Sched StepP TrackP

/-- The facade's constructor body: instantiate the owned target with the
given properties, defaulting `minCapacity` to `1` when the caller supplied
none (`props.minCapacity !== undefined ? props.minCapacity : 1`). -/
def BaseScalableAttribute.construct {Ns Role Sched StepP TrackP : Type}
    (props : BaseScalableAttributeProps Ns Role) :
    BaseScalableAttribute Ns Role Sched StepP TrackP :=
  { props := props,
    target :=
      { props :=
          { serviceNamespace := props.serviceNamespace,
            scalableDimension := props.dimension,
            resourceId := props.resourceId,
            role := props.role,
            minCapacity := match props.minCapacity with
              | some m => m
              | none => 1,
            maxCapacity := props.maxCapacity },
        calls := [] } }

/-- Facade `scaleOnSchedule`: forwards to the owned target. -/
def BaseScalableAttribute.scaleOnSchedule {Ns Role Sched StepP TrackP : Type}
    (a : BaseScalableAttribute Ns Role Sched StepP TrackP) (id : String) (props : Sched) :
    BaseScalableAttribute Ns Role Sched StepP TrackP :=
  { a with target := a.target.scaleOnSchedule id props }

/-- Facade `scaleOnMetric`: forwards to the owned target. -/
def BaseScalableAttribute.scaleOnMetric {Ns Role Sched StepP TrackP : Type}
    (a : BaseScalableAttribute Ns Role Sched StepP TrackP) (id : String) (props : StepP) :
    BaseScalableAttribute Ns Role Sched StepP TrackP :=
  { a with target := a.target.scaleOnMetric id props }

/-- Facade `scaleToTrackMetric`: forwards to the owned target. -/
def BaseScalableAttribute.scaleToTrackMetric {Ns Role Sched StepP TrackP : Type}
    (a : BaseScalableAttribute Ns Role Sched StepP TrackP) (id : String) (props : TrackP) :
    BaseScalableAttribute Ns Role Sched StepP TrackP :=
  { a with target := a.target.scaleToTrackMetric id props }

/-! ### Verification predicates -/

/-- `s` ends with exactly one trailing `'\n'`. -/
def endsWithOneNewline (s : String) : Prop :=
  s.data.getLast? = some '\n' ∧ s.data.dropLast.getLast? ≠ some '\n'

/-- The `write` helper accepts the contents and the data it writes ends with
exactly one trailing newline. -/
def emittedOk (c : Contents) : Prop :=
  ∃ d, writeData c = Except.ok d ∧ endsWithOneNewline d

/-! ### General lemmas -/

theorem jsToLower_append (a b : String) :
    jsToLower (a ++ b) = jsToLower a ++ jsToLower b := by
  apply String.ext
  simp [jsToLower, String.data_append]

theorem lastChar_append_right (a b : String) (c : Char) (h : b.data.getLast? = some c) :
    (a ++ b).data.getLast? = some c := by
  simp [String.data_append, List.getLast?_append, h]

theorem endsWithOneNewline_append (d : String) (h : d.data.getLast? ≠ some '\n') :
    endsWithOneNewline (d ++ "\n") := by
  constructor
  · simp [String.data_append, List.getLast?_append]
  · have hnl : ("\n" : String).data = ['\n'] := rfl
    rw [String.data_append, hnl, List.dropLast_concat]
    exact h

theorem emittedOk_of_lastChar (c : Contents) (d : String) (ch : Char)
    (hr : renderContents c = .ok d) (h : d.data.getLast? = some ch) (hch : ch ≠ '\n') :
    emittedOk c := by
  refine ⟨d ++ "\n", by simp [writeData, hr, Except.map], endsWithOneNewline_append d ?_⟩
  rw [h]
  simp [hch]

theorem jrender_jobj_cons (ind : Nat) (k : String) (v : JVal) (fs : List (String × JVal)) :
    jrender ind (.jobj ((k, v) :: fs)) =
      "\x7b\n" ++ jrenderFields (ind + 2) ((k, v) :: fs) ++ "\n" ++ spaces ind ++ "\x7d" := by
  rw [jrender]

theorem jrender_jobj_lastChar (ind : Nat) (k : String) (v : JVal) (fs : List (String × JVal)) :
    (jrender ind (.jobj ((k, v) :: fs))).data.getLast? = some '\x7d' := by
  rw [jrender_jobj_cons]
  exact lastChar_append_right _ _ _ rfl

theorem processNamespace_skip (env : GenEnv) (ns : String) (st : GenState)
    (h : moduleDirName ns ∈ st.dirs) :
    processNamespace env ns st = (st, none) := by
  unfold processNamespace
  simp [h]

theorem processNamespace_noSep (env : GenEnv) (ns : String) (st : GenState)
    (h : moduleDirName ns ∉ st.dirs) (hb : (splitNs ns).2 = none) :
    processNamespace env ns st = (st, some typeErrorUndefined) := by
  unfold processNamespace
  simp [h, hb]

theorem processNamespace_gen (env : GenEnv) (ns b : String) (st : GenState)
    (hb : (splitNs ns).2 = some b) (h : moduleDirName ns ∉ st.dirs) :
    ∃ execsNew err?,
      processNamespace env ns st =
        ({ dirs := st.dirs ++ [moduleDirName ns],
           writes := st.writes ++ (generatedFiles env.version ns (moduleDirName ns)
             (jsToLower b) ("@aws-cdk/" ++ moduleDirName ns)).map
               (fun pc => (joinPath (moduleDirName ns) pc.1, pc.2)),
           copies := st.copies ++ env.templateFiles.map
             (fun f => (joinPath "template" f, joinPath (moduleDirName ns) f)),
           execs := st.execs ++ execsNew }, err?) := by
  by_cases h1 : env.exitOf (env.lerna ++ " bootstrap --scope " ++ ("@aws-cdk/" ++ moduleDirName ns)) = 0
  · by_cases h2 : env.exitOf (env.lerna ++ " run --include-filtered-dependencies --progress build --scope " ++ ("@aws-cdk/" ++ moduleDirName ns)) = 0
    · refine ⟨[env.lerna ++ " bootstrap --scope " ++ ("@aws-cdk/" ++ moduleDirName ns),
        env.lerna ++ " run --include-filtered-dependencies --progress build --scope " ++ ("@aws-cdk/" ++ moduleDirName ns)], none, ?_⟩
      simp [processNamespace, exec, h, hb, h1, h2, List.append_assoc]
    · refine ⟨[env.lerna ++ " bootstrap --scope " ++ ("@aws-cdk/" ++ moduleDirName ns),
        env.lerna ++ " run --include-filtered-dependencies --progress build --scope " ++ ("@aws-cdk/" ++ moduleDirName ns)],
        some ("non-zero exit code: " ++ toString (env.exitOf (env.lerna ++ " run --include-filtered-dependencies --progress build --scope " ++ ("@aws-cdk/" ++ moduleDirName ns)))), ?_⟩
      simp [processNamespace, exec, h, hb, h1, h2, List.append_assoc]
  · refine ⟨[env.lerna ++ " bootstrap --scope " ++ ("@aws-cdk/" ++ moduleDirName ns)],
      some ("non-zero exit code: " ++ toString (env.exitOf (env.lerna ++ " bootstrap --scope " ++ ("@aws-cdk/" ++ moduleDirName ns)))), ?_⟩
    simp [processNamespace, exec, h, hb, h1]

theorem runLoop_cons_of_ok (env : GenEnv) (ns : String) (rest : List String)
    (st st' : GenState) (h : processNamespace env ns st = (st', none)) :
    runLoop env (ns :: rest) st = runLoop env rest st' := by
  simp [runLoop, h]

theorem runLoop_cons_of_err (env : GenEnv) (ns : String) (rest : List String)
    (st st' : GenState) (e : String) (h : processNamespace env ns st = (st', some e)) :
    runLoop env (ns :: rest) st = (st', some e) := by
  simp [runLoop, h]

theorem processNamespace_extends (env : GenEnv) (ns : String) (st : GenState) :
    ∃ dnew wnew, (processNamespace env ns st).1.dirs = st.dirs ++ dnew ∧
      (processNamespace env ns st).1.writes = st.writes ++ wnew := by
  by_cases hmem : moduleDirName ns ∈ st.dirs
  · rw [processNamespace_skip env ns st hmem]
    exact ⟨[], [], by simp, by simp⟩
  · cases hb : (splitNs ns).2 with
    | none =>
      rw [processNamespace_noSep env ns st hmem hb]
      exact ⟨[], [], by simp, by simp⟩
    | some b =>
      obtain ⟨en, e?, hgen⟩ := processNamespace_gen env ns b st hb hmem
      rw [hgen]
      exact ⟨_, _, rfl, rfl⟩

theorem generatedFiles_emittedOk (version ns moduleName low pkg : String) :
    ∀ pc ∈ generatedFiles version ns moduleName low pkg, emittedOk pc.2 := by
  intro pc hpc
  simp only [generatedFiles, List.mem_cons, List.not_mem_nil, or_false] at hpc
  rcases hpc with h | h | h | h | h | h
  · subst h
    refine emittedOk_of_lastChar _ _ '\x7d' rfl ?_ (by decide)
    simp only [packageJson]
    exact jrender_jobj_lastChar 0 _ _ _
  · subst h
    exact emittedOk_of_lastChar _ _ 'n' rfl (by decide) (by decide)
  · subst h
    exact emittedOk_of_lastChar _ _ 'i' rfl (by decide) (by decide)
  · subst h
    refine emittedOk_of_lastChar _ _ ';' rfl ?_ (by decide)
    simp only [indexTsLines, jsJoin]
    exact lastChar_append_right _ _ _ (lastChar_append_right _ _ _ rfl)
  · subst h
    exact emittedOk_of_lastChar _ _ ';' rfl (by decide) (by decide)
  · subst h
    refine emittedOk_of_lastChar _ _ '`' rfl ?_ (by decide)
    simp only [readmeLines, jsJoin]
    exact lastChar_append_right _ _ _ (lastChar_append_right _ _ _
      (lastChar_append_right _ _ _ (lastChar_append_right _ _ _
        (lastChar_append_right _ _ _ (lastChar_append_right _ _ _ rfl)))))

theorem processNamespace_writes_emittedOk (env : GenEnv) (ns : String) (st : GenState)
    (h0 : ∀ w ∈ st.writes, emittedOk w.2) :
    ∀ w ∈ (processNamespace env ns st).1.writes, emittedOk w.2 := by
  by_cases hmem : moduleDirName ns ∈ st.dirs
  · rw [processNamespace_skip env ns st hmem]
    exact h0
  · cases hb : (splitNs ns).2 with
    | none =>
      rw [processNamespace_noSep env ns st hmem hb]
      exact h0
    | some b =>
      obtain ⟨en, e?, hgen⟩ := processNamespace_gen env ns b st hb hmem
      rw [hgen]
      intro w hw
      rcases List.mem_append.1 hw with hw | hw
      · exact h0 w hw
      · obtain ⟨pc, hpc, rfl⟩ := List.mem_map.1 hw
        exact generatedFiles_emittedOk _ _ _ _ _ pc hpc

theorem runLoop_writes_emittedOk (env : GenEnv) :
    ∀ (namespaces : List String) (st : GenState),
      (∀ w ∈ st.writes, emittedOk w.2) →
      ∀ w ∈ (runLoop env namespaces st).1.writes, emittedOk w.2 := by
  intro namespaces
  induction namespaces with
  | nil =>
    intro st h0
    simpa [runLoop] using h0
  | cons ns rest ih =>
    intro st h0
    have h1 := processNamespace_writes_emittedOk env ns st h0
    rcases hp : processNamespace env ns st with ⟨st', e?⟩
    rw [hp] at h1
    cases e? with
    | none =>
      rw [runLoop_cons_of_ok env ns rest st st' hp]
      exact ih st' h1
    | some e =>
      rw [runLoop_cons_of_err env ns rest st st' e hp]
      exact h1

/-! ### Claim theorems -/

/-- C1: a namespace whose derived module directory already exists at the
resolved root causes zero file-system writes, zero template copies and zero
subprocess invocations (the iteration returns the state unchanged), and the
loop proceeds directly to the next namespace; existing directories are never
regenerated or updated. -/
theorem existing_directory_skipped (env : GenEnv) (ns : String) (st : GenState)
    (h : moduleDirName ns ∈ st.dirs) :
    processNamespace env ns st = (st, none) ∧
    ∀ rest, runLoop env (ns :: rest) st = runLoop env rest st :=
  ⟨processNamespace_skip env ns st h,
   fun rest => runLoop_cons_of_ok env ns rest st st (processNamespace_skip env ns st h)⟩

/-- Witness for C1 at the namespace `AWS::S3` with `aws-s3` already present. -/
theorem existing_directory_skipped_witness :
    moduleDirName "AWS::S3" ∈ (GenState.mk ["aws-s3"] [] [] []).dirs ∧
    processNamespace ⟨"1.2.3", "lerna", [], fun _ => 0⟩ "AWS::S3"
        ⟨["aws-s3"], [], [], []⟩ = (⟨["aws-s3"], [], [], []⟩, none) :=
  ⟨by decide,
   (existing_directory_skipped ⟨"1.2.3", "lerna", [], fun _ => 0⟩ "AWS::S3"
     ⟨["aws-s3"], [], [], []⟩ (by decide)).1⟩

/-- C2: the facade's constructor instantiates the single owned scalable
target with the caller's namespace, dimension, resource id and role, with
minimum capacity equal to the supplied value or defaulted to `1`, and with no
calls registered yet; each of `scaleOnSchedule` / `scaleOnMetric` /
`scaleToTrackMetric` makes exactly one corresponding call on the owned target
with the identical `(id, props)`, with no transformation or validation. -/
theorem facade_pure_forwarding {Ns Role Sched StepP TrackP : Type}
    (props : BaseScalableAttributeProps Ns Role)
    (a : BaseScalableAttribute Ns Role Sched StepP TrackP)
    (id : String) (sch : Sched) (stp : StepP) (trk : TrackP) :
    (@BaseScalableAttribute.construct Ns Role Sched StepP TrackP props).target.calls = [] ∧
    (@BaseScalableAttribute.construct Ns Role Sched StepP TrackP props).target.props =
      { serviceNamespace := props.serviceNamespace,
        scalableDimension := props.dimension,
        resourceId := props.resourceId,
        role := props.role,
        minCapacity := props.minCapacity.getD 1,
        maxCapacity := props.maxCapacity } ∧
    (a.scaleOnSchedule id sch).target.calls = a.target.calls ++ [.scaleOnSchedule id sch] ∧
    (a.scaleOnMetric id stp).target.calls = a.target.calls ++ [.scaleOnMetric id stp] ∧
    (a.scaleToTrackMetric id trk).target.calls = a.target.calls ++ [.scaleToTrackMetric id trk] := by
  refine ⟨rfl, ?_, rfl, rfl, rfl⟩
  cases hm : props.minCapacity <;>
    simp [BaseScalableAttribute.construct, hm]

/-- C3: a subprocess exit status of `0` resolves the invocation and lets the
loop continue with the next namespace; any non-zero status rejects with an
error whose message contains that exit code, aborts all remaining namespaces
(the loop returns at once, whatever the rest of the sequence is), leaves the
directories and writes of prior namespaces in place (the failure state only
extends them), and makes the process terminate with exit status `1` after
printing the error. -/
theorem subprocess_exit_handling (env : GenEnv) :
    (∀ st cmd, env.exitOf cmd = 0 →
      exec env.exitOf st cmd = ({ st with execs := st.execs ++ [cmd] }, none)) ∧
    (∀ st cmd, env.exitOf cmd ≠ 0 →
      ∃ msg, exec env.exitOf st cmd = ({ st with execs := st.execs ++ [cmd] }, some msg) ∧
        ∃ pre post, msg = pre ++ toString (env.exitOf cmd) ++ post) ∧
    (∀ ns st st', processNamespace env ns st = (st', none) →
      ∀ rest, runLoop env (ns :: rest) st = runLoop env rest st') ∧
    (∀ ns st st' e, processNamespace env ns st = (st', some e) →
      (∀ rest, runLoop env (ns :: rest) st = (st', some e)) ∧
      (∃ dnew wnew, st'.dirs = st.dirs ++ dnew ∧ st'.writes = st.writes ++ wnew) ∧
      (∀ root rest, basename root = "@aws-cdk" →
        scaffolderProcess env root (ns :: rest) st = (st', 1, some e))) := by
  refine ⟨?_, ?_, ?_, ?_⟩
  · intro st cmd h
    simp [exec, h]
  · intro st cmd h
    refine ⟨"non-zero exit code: " ++ toString (env.exitOf cmd), ?_,
      "non-zero exit code: ", "", by simp⟩
    simp [exec, h]
  · exact fun ns st st' h rest => runLoop_cons_of_ok env ns rest st st' h
  · intro ns st st' e h
    refine ⟨fun rest => runLoop_cons_of_err env ns rest st st' e h, ?_, ?_⟩
    · have hx := processNamespace_extends env ns st
      rw [h] at hx
      exact hx
    · intro root rest hroot
      have hrl := runLoop_cons_of_err env ns rest st st' e h
      simp [scaffolderProcess, mainRun, hroot, hrl]

/-- Witness for C3: with every subprocess exiting `2`, generating `AWS::S3`
fails with `non-zero exit code: 2` and the loop never reaches `AWS::SQS`. -/
theorem subprocess_exit_handling_witness :
    processNamespace ⟨"1.2.3", "lerna", [], fun _ => 2⟩ "AWS::S3" ⟨[], [], [], []⟩ =
      ((processNamespace ⟨"1.2.3", "lerna", [], fun _ => 2⟩ "AWS::S3" ⟨[], [], [], []⟩).1,
        some "non-zero exit code: 2") ∧
    runLoop ⟨"1.2.3", "lerna", [], fun _ => 2⟩ ["AWS::S3", "AWS::SQS"] ⟨[], [], [], []⟩ =
      ((processNamespace ⟨"1.2.3", "lerna", [], fun _ => 2⟩ "AWS::S3" ⟨[], [], [], []⟩).1,
        some "non-zero exit code: 2") :=
  ⟨rfl,
   ((subprocess_exit_handling ⟨"1.2.3", "lerna", [], fun _ => 2⟩).2.2.2 "AWS::S3"
     ⟨[], [], [], []⟩ _ _ rfl).1 ["AWS::SQS"]⟩

/-- C4: for every namespace that splits as `(family, baseName)` on `::`, the
derived module name is `lowercase(family) ++ "-" ++ lowercase(baseName)`, and
the derivation is deterministic: any namespace with the same split yields the
identical module name. -/
theorem module_name_derivation (ns f b : String) (h : splitNs ns = (f, some b)) :
    moduleDirName ns = jsToLower f ++ "-" ++ jsToLower b ∧
    ∀ ns', splitNs ns' = (f, some b) → moduleDirName ns' = moduleDirName ns := by
  have key : ∀ m, splitNs m = (f, some b) →
      moduleDirName m = jsToLower f ++ "-" ++ jsToLower b := by
    intro m hm
    unfold moduleDirName
    rw [hm]
    show jsToLower (f ++ "-" ++ b) = _
    rw [jsToLower_append, jsToLower_append]
    rfl
  exact ⟨key ns h, fun ns' h' => (key ns' h').trans (key ns h).symm⟩

/-- Witness for C4 at `AWS::S3`. -/
theorem module_name_derivation_witness :
    splitNs "AWS::S3" = ("AWS", some "S3") ∧
    moduleDirName "AWS::S3" = jsToLower "AWS" ++ "-" ++ jsToLower "S3" :=
  ⟨by decide, (module_name_derivation "AWS::S3" "AWS" "S3" (by decide)).1⟩

/-- C5: for the reserved family literal `AWS` the derived java package and
artifact identifiers omit the family prefix; for any other family they
include it, lowercased and dot-joined (package identifier) respectively
hyphen-joined (artifact identifier). -/
theorem java_identifier_branches (family base : String) (h : family ≠ "AWS") :
    (javaPackage "AWS" (jsToLower base) = "services." ++ jsToLower base ∧
     javaArtifactId "AWS" (jsToLower base) = jsToLower base) ∧
    (javaPackage family (jsToLower base) = jsToLower family ++ "." ++ jsToLower base ∧
     javaArtifactId family (jsToLower base) = jsToLower family ++ "-" ++ jsToLower base) := by
  refine ⟨⟨?_, ?_⟩, ?_, ?_⟩ <;> simp [javaPackage, javaArtifactId, h]

/-- Witness for C5 at the non-reserved family `Alexa` with base `ASK`. -/
theorem java_identifier_branches_witness :
    ("Alexa" : String) ≠ "AWS" ∧
    javaPackage "Alexa" (jsToLower "ASK") = jsToLower "Alexa" ++ "." ++ jsToLower "ASK" :=
  ⟨by decide, (java_identifier_branches "Alexa" "ASK" (by decide)).2.1⟩

/-- C6: for the namespace `Family::Widget` at version `1.2.3`, the emitted
manifest's `name` field is `@aws-cdk/family-widget` (the scope is the fixed
literal `@aws-cdk`), and every version pin in its `dependencies` and
`devDependencies` maps equals `^1.2.3`. -/
theorem manifest_name_and_version_pins :
    ∃ m : JVal,
      (processNamespace ⟨"1.2.3", "lerna", [], fun _ => 0⟩ "Family::Widget"
          ⟨[], [], [], []⟩).1.writes[0]? =
        some ("family-widget/package.json", Contents.obj m) ∧
      m.get "name" = some (.jstr "@aws-cdk/family-widget") ∧
      (∃ dd, m.get "devDependencies" = some (.jobj dd) ∧ dd ≠ [] ∧
        ∀ kv ∈ dd, kv.2 = JVal.jstr "^1.2.3") ∧
      (∃ dp, m.get "dependencies" = some (.jobj dp) ∧ dp ≠ [] ∧
        ∀ kv ∈ dp, kv.2 = JVal.jstr "^1.2.3") := by
  refine ⟨packageJson "1.2.3" "Family::Widget" "family-widget" "widget" "@aws-cdk/family-widget",
    rfl, rfl, ?_, ?_⟩
  · refine ⟨[("@aws-cdk/assert", .jstr "^1.2.3"), ("cdk-build-tools", .jstr "^1.2.3"),
      ("cfn2ts", .jstr "^1.2.3"), ("pkglint", .jstr "^1.2.3")], rfl, by simp, ?_⟩
    intro kv hkv
    simp only [List.mem_cons, List.not_mem_nil, or_false] at hkv
    rcases hkv with h | h | h | h <;> subst h <;> rfl
  · refine ⟨[("@aws-cdk/cdk", .jstr "^1.2.3")], rfl, by simp, ?_⟩
    intro kv hkv
    simp only [List.mem_cons, List.not_mem_nil, or_false] at hkv
    subst hkv
    rfl

/-- C7: when the resolved root's basename is not the literal `@aws-cdk`, the
run fails before any namespace is processed or any file is written (the state
is returned unchanged) and the process exits with status `1` after logging the
error; more generally every error surfacing from `main` is caught once at the
top level, logged, and turned into exit status `1`, while an error-free run
exits with status `0`. -/
theorem root_check_and_toplevel (env : GenEnv) (root : String)
    (namespaces : List String) (st : GenState) :
    (basename root ≠ "@aws-cdk" →
      mainRun env root namespaces st =
        (st, some ("Something went wrong. We expected " ++ root ++
          " to be the \"packages/@aws-cdk\" directory. Did you move me?")) ∧
      scaffolderProcess env root namespaces st =
        (st, 1, some ("Something went wrong. We expected " ++ root ++
          " to be the \"packages/@aws-cdk\" directory. Did you move me?"))) ∧
    (∀ st' e, mainRun env root namespaces st = (st', some e) →
      scaffolderProcess env root namespaces st = (st', 1, some e)) ∧
    (∀ st', mainRun env root namespaces st = (st', none) →
      scaffolderProcess env root namespaces st = (st', 0, none)) := by
  refine ⟨?_, ?_, ?_⟩
  · intro h
    exact ⟨by simp [mainRun, h], by simp [scaffolderProcess, mainRun, h]⟩
  · intro st' e h
    simp [scaffolderProcess, h]
  · intro st' h
    simp [scaffolderProcess, h]

/-- Witness for C7 at a root whose basename is not `@aws-cdk`. -/
theorem root_check_and_toplevel_witness :
    basename "/somewhere/else" ≠ "@aws-cdk" ∧
    scaffolderProcess ⟨"1.2.3", "lerna", [], fun _ => 0⟩ "/somewhere/else"
        ["AWS::S3"] ⟨[], [], [], []⟩ =
      (⟨[], [], [], []⟩, 1,
        some ("Something went wrong. We expected " ++ "/somewhere/else" ++
          " to be the \"packages/@aws-cdk\" directory. Did you move me?")) :=
  ⟨by decide,
   ((root_check_and_toplevel ⟨"1.2.3", "lerna", [], fun _ => 0⟩ "/somewhere/else"
     ["AWS::S3"] ⟨[], [], [], []⟩).1 (by decide)).2⟩

/-- C8: the generated entry-point file is the fourth write of a generation
run, its contents are identical in any two runs over the same namespace (any
environments and any prior states in which the module directory is absent),
and its bytes are the namespace comment line followed by a re-export line
that is a function of `lowercase(baseName)` alone. -/
theorem entrypoint_reexport_determined (env env' : GenEnv) (ns f b : String)
    (st st' : GenState) (h : splitNs ns = (f, some b))
    (h1 : moduleDirName ns ∉ st.dirs) (h2 : moduleDirName ns ∉ st'.dirs) :
    ∃ entry : String × Contents,
      ((processNamespace env ns st).1.writes.drop st.writes.length)[3]? = some entry ∧
      ((processNamespace env' ns st').1.writes.drop st'.writes.length)[3]? = some entry ∧
      entry = (joinPath (moduleDirName ns) "lib/index.ts",
        Contents.list (indexTsLines ns (jsToLower b))) ∧
      writeData (Contents.list (indexTsLines ns (jsToLower b))) =
        .ok ("// " ++ ns ++ " CloudFormation Resources:" ++ "\n" ++
          ("export * from './" ++ jsToLower b ++ ".generated';") ++ "\n") := by
  have hb : (splitNs ns).2 = some b := by rw [h]
  obtain ⟨en, e?, hgen⟩ := processNamespace_gen env ns b st hb h1
  obtain ⟨en', e?', hgen'⟩ := processNamespace_gen env' ns b st' hb h2
  refine ⟨(joinPath (moduleDirName ns) "lib/index.ts",
    Contents.list (indexTsLines ns (jsToLower b))), ?_, ?_, rfl, rfl⟩
  · rw [hgen]
    simp [generatedFiles, List.drop_left]
  · rw [hgen']
    simp [generatedFiles, List.drop_left]

/-- Witness for C8: two runs over `AWS::S3` with different versions and
different prior states produce the same entry-point write. -/
theorem entrypoint_reexport_determined_witness :
    splitNs "AWS::S3" = ("AWS", some "S3") ∧
    moduleDirName "AWS::S3" ∉ (GenState.mk [] [] [] []).dirs ∧
    moduleDirName "AWS::S3" ∉ (GenState.mk ["other"] [] [] ["x"]).dirs ∧
    ∃ entry : String × Contents,
      ((processNamespace ⟨"1.2.3", "lerna", [], fun _ => 0⟩ "AWS::S3"
          ⟨[], [], [], []⟩).1.writes.drop (GenState.mk [] [] [] []).writes.length)[3]? =
        some entry ∧
      ((processNamespace ⟨"9.9.9", "lerna2", ["t"], fun _ => 1⟩ "AWS::S3"
          ⟨["other"], [], [], ["x"]⟩).1.writes.drop
            (GenState.mk ["other"] [] [] ["x"]).writes.length)[3]? = some entry ∧
      entry = (joinPath (moduleDirName "AWS::S3") "lib/index.ts",
        Contents.list (indexTsLines "AWS::S3" (jsToLower "S3"))) ∧
      writeData (Contents.list (indexTsLines "AWS::S3" (jsToLower "S3"))) =
        .ok ("// " ++ "AWS::S3" ++ " CloudFormation Resources:" ++ "\n" ++
          ("export * from './" ++ jsToLower "S3" ++ ".generated';") ++ "\n") :=
  ⟨by decide, by decide, by decide,
   entrypoint_reexport_determined ⟨"1.2.3", "lerna", [], fun _ => 0⟩
     ⟨"9.9.9", "lerna2", ["t"], fun _ => 1⟩ "AWS::S3" "AWS" "S3"
     ⟨[], [], [], []⟩ ⟨["other"], [], [], ["x"]⟩ (by decide) (by decide) (by decide)⟩

/-- C9: a namespace without the `::` separator has an undefined base name:
the derived directory name is `lowercase(family) ++ "-undefined"`, and when
that directory is absent the iteration aborts with the `TypeError` raised by
lowercasing `undefined` — performing no writes and no subprocess invocations
— and the whole remaining loop aborts with it. -/
theorem missing_separator_aborts (env : GenEnv) (ns f : String) (st : GenState)
    (h : splitNs ns = (f, none)) (h2 : moduleDirName ns ∉ st.dirs) :
    moduleDirName ns = jsToLower f ++ "-undefined" ∧
    processNamespace env ns st = (st, some typeErrorUndefined) ∧
    (∀ rest, runLoop env (ns :: rest) st = (st, some typeErrorUndefined)) := by
  have hb : (splitNs ns).2 = none := by rw [h]
  refine ⟨?_, processNamespace_noSep env ns st h2 hb, fun rest =>
    runLoop_cons_of_err env ns rest st st _ (processNamespace_noSep env ns st h2 hb)⟩
  unfold moduleDirName
  rw [h]
  show jsToLower (f ++ "-" ++ "undefined") = _
  rw [jsToLower_append, jsToLower_append]
  have e1 : jsToLower "-" = "-" := rfl
  have e2 : jsToLower "undefined" = "undefined" := rfl
  rw [e1, e2, String.append_assoc]
  rfl

/-- Witness for C9 at the separator-less namespace `Tag`. -/
theorem missing_separator_aborts_witness :
    splitNs "Tag" = ("Tag", none) ∧
    moduleDirName "Tag" ∉ (GenState.mk [] [] [] []).dirs ∧
    (moduleDirName "Tag" = jsToLower "Tag" ++ "-undefined" ∧
      processNamespace ⟨"1.2.3", "lerna", [], fun _ => 0⟩ "Tag" ⟨[], [], [], []⟩ =
        (⟨[], [], [], []⟩, some typeErrorUndefined)) :=
  ⟨by decide, by decide,
   ⟨(missing_separator_aborts ⟨"1.2.3", "lerna", [], fun _ => 0⟩ "Tag" "Tag"
      ⟨[], [], [], []⟩ (by decide) (by decide)).1,
    (missing_separator_aborts ⟨"1.2.3", "lerna", [], fun _ => 0⟩ "Tag" "Tag"
      ⟨[], [], [], []⟩ (by decide) (by decide)).2.1⟩⟩

/-- C10: the `write` helper's body is determined by the shape of the
contents — a string is `trimLeft`ed, a list is joined with single newlines, a
structured record is serialized by `JSON.stringify` with two-space
indentation, and any other shape raises an error — and every file emitted
during a scaffolder run (started with no writes performed yet) ends with
exactly one trailing newline. -/
theorem write_helper_contract (env : GenEnv) (namespaces : List String)
    (st : GenState) (h0 : st.writes = []) :
    (∀ s, writeData (.str s) = .ok (jsTrimLeft s ++ "\n")) ∧
    (∀ xs, writeData (.list xs) = .ok (jsJoin "\n" xs ++ "\n")) ∧
    (∀ j, writeData (.obj j) = .ok (jrender 0 j ++ "\n")) ∧
    writeData .other = .error "Invalid type of contents" ∧
    (∀ w ∈ (runLoop env namespaces st).1.writes,
      ∃ d, writeData w.2 = Except.ok d ∧ endsWithOneNewline d) := by
  refine ⟨fun s => rfl, fun xs => rfl, fun j => rfl, rfl, ?_⟩
  apply runLoop_writes_emittedOk
  rw [h0]
  simp

/-- Witness for C10: the run over `AWS::S3` from the empty state. -/
theorem write_helper_contract_witness :
    (GenState.mk [] [] [] []).writes = [] ∧
    ∀ w ∈ (runLoop ⟨"1.2.3", "lerna", [], fun _ => 0⟩ ["AWS::S3"]
        ⟨[], [], [], []⟩).1.writes,
      ∃ d, writeData w.2 = Except.ok d ∧ endsWithOneNewline d :=
  ⟨rfl,
   (write_helper_contract ⟨"1.2.3", "lerna", [], fun _ => 0⟩ ["AWS::S3"]
     ⟨[], [], [], []⟩ rfl).2.2.2.2⟩

end Cdk
